import Mathlib

/-!
Verification of the NEOWISE ingestion/aggregation pipeline of
`koji0215/web_standard_viewer` against its specification.

The Python sources are shallowly embedded over exact rationals:

* magnitudes, MJDs, fluxes and coordinates become `ℚ`;
* the transcendental helpers of NumPy (`10 ** x`, `sqrt`, `log10`) are
  parameters of the embedding (`pow10`, `SqrtFn`, `log10q`); every theorem
  holds for all interpretations of these parameters, in particular for the
  real functions the floats approximate.  Comparisons of the form
  `a / sqrt b ≥ t` and `|x - μ| ≤ 3 σ` are encoded by the equivalent
  squared comparisons (`snrGe`, `sigmaClip3`), which agree with the float
  comparisons whenever the float math is exact;
* a null `sigmpro` makes a row's `flux_error` NaN (`Option ℚ`); the pandas
  aggregations `(x**2).sum()` keep their default `skipna=True`, so those
  rows are skipped by `epochErrSq` and an all-null epoch sums to 0
  (`snr = inf`);
* the IEEE special values that can reach the `mag_lim` / `snr` columns are
  carried by the small inductive `LimV` (finite / +infinity / NaN);
* Python's `round(x, n)` (resp. `int(round(x))`) becomes `round4`/`round2`
  (resp. `round`); they differ from banker's rounding only on exact ties,
  which none of the statements below depend on.
-/

/-! ## Bands and raw remote rows (`neowiser_p1bs_psd` schema) -/

/-- The two NEOWISE photometric bands. -/
inductive Band where
  | W1 : Band
  | W2 : Band
deriving DecidableEq, Inhabited

/-- Character index used by `cc_flags` / `ph_qual` / `moon_masked`:
0 for W1, 1 for W2 (`cc_flag_idx` etc. in `_process_band_with_default_filter`). -/
def bandIdx : Band → ℕ
  | Band.W1 => 0
  | Band.W2 => 1

/-- One row of the remote catalog result, both bands present
(the dataframe schema used by `neowise_to_sqlite.py`).  Nullable columns
(`w1mpro`, `w1sigmpro`, `w1sky`, ...) are `Option ℚ`. -/
structure RawRow where
  mjd : ℚ
  allwise_cntr : ℤ
  w1mpro : Option ℚ
  w1sigmpro : Option ℚ
  w1sat : ℚ
  w1rchi2 : ℚ
  w1sky : Option ℚ
  w2mpro : Option ℚ
  w2sigmpro : Option ℚ
  w2sat : ℚ
  w2rchi2 : ℚ
  w2sky : Option ℚ
  cc_flags : String
  ph_qual : String
  moon_masked : String
  sso_flg : ℤ
  qi_fact : ℚ
  saa_sep : ℚ
  qual_frame : ℚ
  scan_id : String
deriving DecidableEq, Inhabited

/-- Column selector `w1mpro` / `w2mpro` (`mag_col`). -/
def bandMpro : Band → RawRow → Option ℚ
  | Band.W1, r => r.w1mpro
  | Band.W2, r => r.w2mpro

/-- Column selector `w1sigmpro` / `w2sigmpro` (`unc_col`). -/
def bandSigmpro : Band → RawRow → Option ℚ
  | Band.W1, r => r.w1sigmpro
  | Band.W2, r => r.w2sigmpro

/-- Column selector `w1sat` / `w2sat` (`sat_col`). -/
def bandSat : Band → RawRow → ℚ
  | Band.W1, r => r.w1sat
  | Band.W2, r => r.w2sat

/-- Column selector `w1rchi2` / `w2rchi2` (`rchi2_col`). -/
def bandRchi2 : Band → RawRow → ℚ
  | Band.W1, r => r.w1rchi2
  | Band.W2, r => r.w2rchi2

/-- Column selector `w1sky` / `w2sky` (`sky_col`). -/
def bandSky : Band → RawRow → Option ℚ
  | Band.W1, r => r.w1sky
  | Band.W2, r => r.w2sky

/-- pandas `s.str[i]`: the i-th character of a string, `none` (NaN) when the
string is shorter.  A NaN never equals any character, matching pandas where
`NaN == 'A'` is False. -/
def strAt (s : String) (i : ℕ) : Option Char :=
  s.data.get? i

/-- The conjunction of the ten default quality predicates applied by
`_process_band_with_default_filter` (lines 478-489 of
`prototype/scripts/neowise_to_sqlite.py`). -/
def defaultFilter (b : Band) (r : RawRow) : Bool :=
  (strAt r.cc_flags (bandIdx b) == some '0') &&
  (r.sso_flg == 0) &&
  (r.qi_fact == 1) &&
  decide (5 ≤ r.saa_sep) &&
  (strAt r.ph_qual (bandIdx b) == some 'A') &&
  (strAt r.moon_masked (bandIdx b) == some '0') &&
  decide (bandSat b r ≤ 1/20) &&
  decide (bandRchi2 b r ≤ 50) &&
  decide (0 < r.qual_frame) &&
  (bandSky b r).isSome

/-! ## Zero-point table (`load_zp_stb`) -/

/-- One row of the zero-point stability table `NEOWISE_zp_stb.csv`
(columns `scan` → `scan_id`, `mjd`, `w1dmag`, `w2dmag`). -/
structure ZpEntry where
  scan_id : String
  mjd : ℚ
  w1dmag : ℚ
  w2dmag : ℚ
deriving DecidableEq, Inhabited

/-- Column selector `w1dmag` / `w2dmag` (`dmag_col`). -/
def bandDmag : Band → ZpEntry → ℚ
  | Band.W1, e => e.w1dmag
  | Band.W2, e => e.w2dmag

/-- `zp_stb_df['mjd'].min()` for a non-empty table (the empty case is always
guarded in the source). -/
def zpMinMjd : List ZpEntry → ℚ
  | [] => 0
  | e :: es => (es.map ZpEntry.mjd).foldl min e.mjd

/-- The zero-point offset merged onto a row: the pandas left-merge on
`scan_id` followed by `.fillna(0)`.  Scan ids are unique in the table, so
`find?` (first match) is the merge. -/
def dmagLookup (t : List ZpEntry) (scan : String) (b : Band) : ℚ :=
  match t.find? (fun e => e.scan_id == scan) with
  | some e => bandDmag b e
  | none => 0

/-- The MJD cutoff of `get_neowise_raw_data` (line 360):
`raw_df[raw_df['mjd'] > zp_stb_df['mjd'].min()]`, applied only when the
table was loaded and is non-empty. -/
def applyMjdCutoff (zp : Option (List ZpEntry)) (rows : List RawRow) : List RawRow :=
  match zp with
  | none => rows
  | some t => if t.isEmpty then rows else rows.filter (fun r => decide (zpMinMjd t < r.mjd))

/-! ## Rounding performed at insert time -/

/-- Python `round(x, 4)` (ties aside). -/
def round4 (q : ℚ) : ℚ := (round (q * 10000) : ℤ) / 10000

/-- Python `round(x, 2)` (ties aside). -/
def round2 (q : ℚ) : ℚ := (round (q * 100) : ℤ) / 100

/-- The corrected magnitude computed in `_save_raw_observations`:
`mpro - dmag(scan_id, band)` with `dmag` defaulting to 0, or plain `mpro`
when no zero-point table was loaded. -/
def mproCorrectedVal (zp : Option (List ZpEntry)) (b : Band) (scan : String) (m : ℚ) : ℚ :=
  match zp with
  | none => m
  | some t => m - dmagLookup t scan b

/-- One row of the `neowise_raw_observations` table. -/
structure StoredObs where
  mjd : ℚ
  band : Band
  mpro : ℚ
  sigmpro : Option ℚ
  cc_flags : String
  ph_qual : String
  moon_masked : String
  sso_flg : ℤ
  qi_fact : ℚ
  saa_sep : ℚ
  sat : ℚ
  rchi2 : ℚ
  qual_frame : ℚ
  sky : Option ℚ
  scan_id : String
  mpro_corrected : ℚ
deriving DecidableEq, Inhabited

/-- The per-band loop body of `_save_raw_observations`: drop rows whose band
magnitude is null, merge the zero-point offset, and insert every remaining row
with 4-decimal rounding. -/
def saveBandRows (zp : Option (List ZpEntry)) (b : Band) (rows : List RawRow) : List StoredObs :=
  rows.filterMap (fun r =>
    (bandMpro b r).map (fun m =>
      { mjd := r.mjd
        band := b
        mpro := round4 m
        sigmpro := (bandSigmpro b r).map round4
        cc_flags := r.cc_flags
        ph_qual := r.ph_qual
        moon_masked := r.moon_masked
        sso_flg := r.sso_flg
        qi_fact := r.qi_fact
        saa_sep := r.saa_sep
        sat := bandSat b r
        rchi2 := bandRchi2 b r
        qual_frame := r.qual_frame
        sky := bandSky b r
        scan_id := r.scan_id
        mpro_corrected := round4 (mproCorrectedVal zp b r.scan_id m) }))

/-- `_save_raw_observations`: both bands, W1 first. -/
def saveRawObservations (zp : Option (List ZpEntry)) (rows : List RawRow) : List StoredObs :=
  saveBandRows zp Band.W1 rows ++ saveBandRows zp Band.W2 rows

/-! ## Epoch grouping (step `table_3sigma['epoch_id'] = (diff >= 100).cumsum()`) -/

/-- `epoch_id` of the i-th row of the (mjd-ordered) band table: the running
sum of the boolean series `mjd.diff() >= 100` (first difference is NaN,
hence False, so row 0 gets id 0). -/
def epochIdF (mjd : ℕ → ℚ) : ℕ → ℕ
  | 0 => 0
  | k + 1 => epochIdF mjd k + (if 100 ≤ mjd (k + 1) - mjd k then 1 else 0)

theorem epochIdF_mono (mjd : ℕ → ℚ) {i j : ℕ} (h : i ≤ j) :
    epochIdF mjd i ≤ epochIdF mjd j := by
  induction j with
  | zero => simp [Nat.le_zero.mp h]
  | succ j ih =>
    rcases Nat.le_succ_iff.mp h with h' | h'
    · exact le_trans (ih h') (by rw [epochIdF]; exact Nat.le_add_right _ _)
    · simp [h']

/-- Cumulative-count reading of `epochIdF`: the id of row `i` is the number
of indices `k < i` at which the gap `mjd (k+1) - mjd k` reaches 100. -/
theorem epochIdF_eq_count (mjd : ℕ → ℚ) (i : ℕ) :
    epochIdF mjd i =
      ((List.range i).filter (fun k => decide (100 ≤ mjd (k + 1) - mjd k))).length := by
  induction i with
  | zero => simp [epochIdF]
  | succ i ih =>
    rw [List.range_succ, List.filter_append]
    by_cases h : 100 ≤ mjd (i + 1) - mjd i <;>
      simp [epochIdF, ih, h]

theorem mjd_chain_mono (n : ℕ) (mjd : ℕ → ℚ)
    (hs : ∀ i, i < n → mjd i ≤ mjd (i + 1)) :
    ∀ j, j ≤ n → ∀ i, i ≤ j → mjd i ≤ mjd j := by
  intro j
  induction j with
  | zero => intro _ i hi; simp [Nat.le_zero.mp hi]
  | succ j ih =>
    intro hj i hi
    rcases Nat.le_succ_iff.mp hi with h' | h'
    · exact le_trans (ih (le_trans (Nat.le_succ j) hj) i h')
        (hs j (Nat.lt_of_succ_le hj))
    · simp [h']

theorem epochIdF_gap (n : ℕ) (mjd : ℕ → ℚ)
    (hs : ∀ i, i < n → mjd i ≤ mjd (i + 1)) :
    ∀ j, j ≤ n → ∀ i, i < j → epochIdF mjd i < epochIdF mjd j →
      100 ≤ mjd j - mjd i := by
  intro j
  induction j with
  | zero => intro _ i hi; omega
  | succ j ih =>
    intro hj i hij hlt
    by_cases hb : 100 ≤ mjd (j + 1) - mjd j
    · have hmono : mjd i ≤ mjd j :=
        mjd_chain_mono n mjd hs j (le_trans (Nat.le_succ j) hj) i (Nat.lt_succ_iff.mp hij)
      linarith
    · have hstep : epochIdF mjd (j + 1) = epochIdF mjd j := by
        simp [epochIdF, hb]
      rw [hstep] at hlt
      have hij' : i < j := by
        rcases Nat.lt_succ_iff_lt_or_eq.mp hij with h' | h'
        · exact h'
        · subst h'; omega
      have := ih (le_trans (Nat.le_succ j) hj) i hij' hlt
      have : 100 ≤ mjd j - mjd i := this
      have hjj : mjd j ≤ mjd (j + 1) := hs j (Nat.lt_of_succ_le hj)
      linarith

/-! ## Filter & Aggregation Kernel (`_process_band_with_default_filter`) -/

/-- A band row after the quality filter and zero-point correction:
`mjd`, the (corrected) `mag_col` value, and the possibly-null `unc_col`. -/
structure CRow where
  mjd : ℚ
  mag : ℚ
  sigmpro : Option ℚ
deriving DecidableEq, Inhabited

/-- Zero-point correction on the magnitude column (lines 498-504):
`table_filtered[mag_col] -= dmag.fillna(0)` when the table was loaded,
identity otherwise.  Rows reaching this point passed `dropna(subset=[mag_col])`,
so the magnitude is present. -/
def toCRow (zp : Option (List ZpEntry)) (b : Band) (r : RawRow) : CRow :=
  { mjd := r.mjd
    mag :=
      match zp with
      | none => (bandMpro b r).getD 0
      | some t => (bandMpro b r).getD 0 - dmagLookup t r.scan_id b
    sigmpro := bandSigmpro b r }

/-- `xs.mean()`: 0 on the empty list (never consulted there). -/
def meanQ (xs : List ℚ) : ℚ := xs.sum / xs.length

/-- Square of pandas `xs.std()` (sample standard deviation, `ddof=1`);
0 stands in for the NaN produced when fewer than two values are present
(callers branch on `length ≤ 1` first). -/
def sampleVar (xs : List ℚ) : ℚ :=
  if xs.length ≤ 1 then 0
  else (xs.map (fun x => (x - meanQ xs) ^ 2)).sum / ((xs.length : ℚ) - 1)

/-- 3σ clipping (lines 507-515 of the kernel, lines 536-545 of the filtered
endpoint): keep everything when the standard deviation is 0 or NaN
(`length ≤ 1`), otherwise keep rows with `μ - 3σ ≤ mag ≤ μ + 3σ`, encoded as
`(mag - μ)² ≤ 9·σ²` over exact rationals. -/
def sigmaClip3 (mag : α → ℚ) (xs : List α) : List α :=
  let mags := xs.map mag
  let μ := meanQ mags
  let v := sampleVar mags
  if xs.length ≤ 1 ∨ v = 0 then xs
  else xs.filter (fun c => decide ((mag c - μ) ^ 2 ≤ 9 * v))

/-- `flux = 10 ** (-0.4 * mag)`; `pw` interprets `10 ** ·`. -/
def fluxOf (pw : ℚ → ℚ) (c : CRow) : ℚ := pw (-(2/5) * c.mag)

/-- `flux_error = flux * (10 ** (0.4 * sigmpro) - 1)`; `none` is the NaN
produced when `sigmpro` is null. -/
def fluxErrOf (pw : ℚ → ℚ) (c : CRow) : Option ℚ :=
  c.sigmpro.map (fun sp => fluxOf pw c * (pw ((2/5) * sp) - 1))

/-- The quality-filtered, zero-point-corrected, 3σ-clipped band table
(steps 1-5 of the kernel). -/
def clippedBand (zp : Option (List ZpEntry)) (rows : List RawRow) (b : Band) : List CRow :=
  sigmaClip3 CRow.mag
    (((rows.filter (fun r => (bandMpro b r).isSome)).filter
        (fun r => defaultFilter b r)).map (toCRow zp b))

/-- Rows paired with their `epoch_id` (`(diff >= 100).cumsum()` over the
mjd-ordered table). -/
def pairsOf (cs : List CRow) : List (CRow × ℕ) :=
  cs.enum.map (fun p => (p.2, epochIdF (fun i => (cs.getD i default).mjd) p.1))

/-- The distinct epoch ids, in order of appearance (the `groupby('epoch_id')`
index). -/
def presentEpochIds (ps : List (CRow × ℕ)) : List ℕ :=
  (ps.map Prod.snd).dedup

/-- The rows of one epoch group. -/
def rowsForId (ps : List (CRow × ℕ)) (e : ℕ) : List CRow :=
  (ps.filter (fun p => p.2 == e)).map Prod.fst

/-- `epoch_stats['flux_sum']` for one epoch. -/
def epochFluxSum (pw : ℚ → ℚ) (ps : List (CRow × ℕ)) (e : ℕ) : ℚ :=
  ((rowsForId ps e).map (fluxOf pw)).sum

/-- `epoch_stats['flux_error_sq_sum']` for one epoch: `(x**2).sum()` with
pandas' default `skipna=True` — the squared `flux_error` of a row whose
`sigmpro` is null is NaN and is skipped, and an epoch whose rows are all
null sums to `0.0` (its `snr` is then `inf` and passes every threshold). -/
def epochErrSq (pw : ℚ → ℚ) (ps : List (CRow × ℕ)) (e : ℕ) : ℚ :=
  (((rowsForId ps e).filterMap (fluxErrOf pw)).map (fun x => x ^ 2)).sum

/-- The float comparison `flux_sum / sqrt(flux_error_sq_sum) >= t` for a
positive threshold `t`, encoded without square roots: it holds iff
`flux_sum` is positive and `flux_sum² ≥ t²·flux_error_sq_sum` (with
`flux_error_sq_sum = 0` giving `snr = inf ≥ t`, true). -/
def snrGe (t s e : ℚ) : Bool :=
  decide (0 < s) && decide (t ^ 2 * e ≤ s ^ 2)

/-- The square-root helper `np.sqrt`, abstracted together with the two sign
facts every IEEE implementation satisfies on the inputs the kernel feeds it. -/
structure SqrtFn where
  f : ℚ → ℚ
  nonneg : ∀ q : ℚ, 0 ≤ q → 0 ≤ f q
  pos : ∀ q : ℚ, 1 ≤ q → 0 < f q

/-- Identity interpretation of `SqrtFn`, used to evaluate witnesses. -/
def sqrtId : SqrtFn :=
  { f := fun q => q
    nonneg := fun _ h => h
    pos := fun _ h => lt_of_lt_of_le one_pos h }

/-- Value classes reaching the `mag_lim` / `snr` columns: a finite float,
+infinity, or NaN. -/
inductive LimV where
  | fin : ℚ → LimV
  | inf : LimV
  | nan : LimV
deriving DecidableEq, Inhabited

/-- `mag_lim = -2.5 * log10((flux_mean - sqrt(flux_error_sq_sum)/n) / flux_mean)`
(lines 562-567), classified by the sign of the log argument: positive gives a
finite value, zero gives `-2.5·log10(0) = +inf`, negative gives NaN.
`lg` interprets `log10` on positive arguments. -/
def magLimClass (lg : ℚ → ℚ) (fm seTotal n : ℚ) : LimV :=
  let a := (fm - seTotal / n) / fm
  if 0 < a then LimV.fin (-(5/2) * lg a)
  else if a = 0 then LimV.inf
  else LimV.nan

/-- Persistence of `mag_lim` (line 583): `round(x, 4) if pd.notna(x) and not
np.isnan(x) else None`.  Only NaN becomes NULL; an infinity is bound as-is. -/
def persistLim : LimV → Option LimV
  | LimV.nan => none
  | LimV.inf => some LimV.inf
  | LimV.fin v => some (LimV.fin (round4 v))

/-- Persistence of `snr` (line 584): 2-decimal rounding, NULL only for NaN. -/
def persistSnr : LimV → Option LimV
  | LimV.nan => none
  | LimV.inf => some LimV.inf
  | LimV.fin v => some (LimV.fin (round2 v))

/-- One row of the `neowise_epoch_summary` table (`filter_applied` is the
constant `'default'` and is omitted). -/
structure EpochRow where
  epoch_id : ℕ
  mjd_mean : ℤ
  mag_mean : ℚ
  mag_se : ℚ
  mag_lim : Option LimV
  n_points : ℕ
  snr : Option LimV
deriving DecidableEq, Inhabited

/-- Aggregation of one retained epoch (lines 546-601): means of mjd and
magnitude, standard error (`0` for a single point), `mag_lim`, `snr`, each
rounded as inserted; the `flux_error` square sum again skips NaN entries.
The first component is the unrounded mjd mean, used only for the final
`sort_values('mjd')`. -/
def epochRowOf (pw : ℚ → ℚ) (sq : SqrtFn) (lg : ℚ → ℚ) (e : ℕ) (g : List CRow) :
    ℚ × EpochRow :=
  let n := g.length
  let mags := g.map CRow.mag
  let mjdMean := meanQ (g.map CRow.mjd)
  let se := if 1 < n then sq.f (sampleVar mags) / sq.f (n : ℚ) else 0
  let fluxes := g.map (fluxOf pw)
  let esum := ((g.filterMap (fluxErrOf pw)).map (fun x => x ^ 2)).sum
  let lim := magLimClass lg (meanQ fluxes) (sq.f esum) (n : ℚ)
  let snrv := if esum = 0 then LimV.inf else LimV.fin (fluxes.sum / sq.f esum)
  (mjdMean,
    { epoch_id := e
      mjd_mean := round mjdMean
      mag_mean := round4 (meanQ mags)
      mag_se := round4 se
      mag_lim := persistLim lim
      n_points := n
      snr := persistSnr snrv })

/-- The epoch ids retained by the SNR selection (lines 536-541): ids with
`snr >= 300`; if none, ids with `snr >= 10`; if still none, the band is
dropped. -/
def goodEpochIds (pw : ℚ → ℚ) (ps : List (CRow × ℕ)) : List ℕ :=
  if ((presentEpochIds ps).filter
      (fun e => snrGe 300 (epochFluxSum pw ps e) (epochErrSq pw ps e))).isEmpty then
    if ((presentEpochIds ps).filter
        (fun e => snrGe 10 (epochFluxSum pw ps e) (epochErrSq pw ps e))).isEmpty then []
    else (presentEpochIds ps).filter
      (fun e => snrGe 10 (epochFluxSum pw ps e) (epochErrSq pw ps e))
  else (presentEpochIds ps).filter
    (fun e => snrGe 300 (epochFluxSum pw ps e) (epochErrSq pw ps e))

/-- `_process_band_with_default_filter`: the ingest-time Kernel for one band
under the default filter, producing the inserted `neowise_epoch_summary`
rows in their insertion order (`sort_values('mjd')`). -/
def processBandDefault (pw : ℚ → ℚ) (sq : SqrtFn) (lg : ℚ → ℚ)
    (zp : Option (List ZpEntry)) (rows : List RawRow) (b : Band) : List EpochRow :=
  let ps := pairsOf (clippedBand zp rows b)
  let items := (goodEpochIds pw ps).map (fun e => epochRowOf pw sq lg e (rowsForId ps e))
  (List.insertionSort (fun a b => a.1 ≤ b.1) items).map Prod.snd

/-- Rational interpretation of `10 ** ·` that agrees with the float `10 ** x`
at every integer `x` (the only exponents the concrete inputs below produce). -/
def pow10ex (q : ℚ) : ℚ := if q.den = 1 then (10 : ℚ) ^ q.num else 1

/-- Whether a sorted list of epoch ids is a contiguous block of naturals. -/
def isContiguous (l : List ℕ) : Bool :=
  match l with
  | [] => true
  | a :: _ => l == List.range' a l.length

/-- A remote row passing every default quality predicate in W1, with
magnitude 0 (`flux = 10 ** 0 = 1` exactly) and a chosen `w1sigmpro`. -/
def mkRow (mjd : ℚ) (sig : Option ℚ) : RawRow :=
  { mjd := mjd
    allwise_cntr := 1
    w1mpro := some 0
    w1sigmpro := sig
    w1sat := 0
    w1rchi2 := 0
    w1sky := some 0
    w2mpro := none
    w2sigmpro := none
    w2sat := 0
    w2rchi2 := 0
    w2sky := none
    cc_flags := "00"
    ph_qual := "AA"
    moon_masked := "00"
    sso_flg := 0
    qi_fact := 1
    saa_sep := 5
    qual_frame := 1
    scan_id := "sc" }

/-- Three single-row epochs 200 days apart.  `w1sigmpro = 0` makes an
epoch's `flux_error` 0 (so `snr = 1/0 = inf ≥ 300`); `w1sigmpro = 2.5`
makes `flux_error = 1·(10¹ - 1) = 9` (so `snr = 1/9`, failing even the 10
threshold).  The float arithmetic is exact on these values. -/
def rowsGap : List RawRow :=
  [mkRow 0 (some 0), mkRow 200 (some (5/2)), mkRow 400 (some 0)]

/-! ## Worker-level ingestion flows -/

/-- pandas `value_counts().idxmax()` over the `allwise_cntr` column: a value
of maximal multiplicity (kept candidate order is immaterial to the claims;
the scenarios below have a unique maximum, as pandas assumes). -/
def mostFrequentCntr (l : List ℤ) : ℤ :=
  l.dedup.foldl (fun best c => if l.count best < l.count c then c else best) (l.headD 0)

/-- Outcome of `get_neowise_threadsafe` (`neowise_threadsafe.py`, lines
97-140) after a successful fetch, as a function of the fetched rows:
reported `(success, message)`, the `allwise_cntr` written to `sources`
(`none` when the function bails out before the insert), the raw rows and the
per-band epoch summaries written. -/
structure TSResult where
  success : Bool
  message : String
  sourceCntr : Option ℤ
  rawSaved : List StoredObs
  epochsW1 : List EpochRow
  epochsW2 : List EpochRow
deriving DecidableEq, Inhabited

/-- `get_neowise_threadsafe`: on a multi-`allwise_cntr` result keep only the
rows of the most frequent value (lines 111-113), insert the source, apply
the MJD cutoff, save raw rows and both bands' epochs, and report success
whenever the cutoff left data. -/
def threadsafeIngest (pw : ℚ → ℚ) (sq : SqrtFn) (lg : ℚ → ℚ)
    (zp : Option (List ZpEntry)) (rows : List RawRow) : TSResult :=
  if rows.isEmpty then
    { success := false, message := "No valid data", sourceCntr := none
      rawSaved := [], epochsW1 := [], epochsW2 := [] }
  else
    let resolved :=
      if (rows.map RawRow.allwise_cntr).dedup.length ≠ 1 then
        rows.filter (fun r => r.allwise_cntr == mostFrequentCntr (rows.map RawRow.allwise_cntr))
      else rows
    let cntr := (resolved.headD default).allwise_cntr
    let cut := applyMjdCutoff zp resolved
    if cut.isEmpty then
      { success := false, message := "No data after MJD filtering", sourceCntr := some cntr
        rawSaved := [], epochsW1 := [], epochsW2 := [] }
    else
      { success := true, message := "Success", sourceCntr := some cntr
        rawSaved := saveRawObservations zp cut
        epochsW1 := processBandDefault pw sq lg zp cut Band.W1
        epochsW2 := processBandDefault pw sq lg zp cut Band.W2 }

/-- Outcome of `get_neowise_raw_data` + `_process_single_source`
(`neowise_to_sqlite.py`): as `TSResult`, plus whether the `sources` row was
inserted. -/
structure ProtoResult where
  success : Bool
  message : String
  sourceInserted : Bool
  sourceCntr : Option ℤ
  rawSaved : List StoredObs
  epochsW1 : List EpochRow
  epochsW2 : List EpochRow
deriving DecidableEq, Inhabited

/-- `get_neowise_raw_data` as driven by `_process_single_source`: a
multi-`allwise_cntr` result aborts with empty frames (lines 347-349) before
the source insert, and `_process_single_source` (lines 762-767) reports
success only when at least one band produced epochs, else the failure
`"No valid data"`. -/
def prototypeIngest (pw : ℚ → ℚ) (sq : SqrtFn) (lg : ℚ → ℚ)
    (zp : Option (List ZpEntry)) (rows : List RawRow) : ProtoResult :=
  if rows.isEmpty then
    { success := false, message := "No valid data", sourceInserted := false
      sourceCntr := none, rawSaved := [], epochsW1 := [], epochsW2 := [] }
  else if (rows.map RawRow.allwise_cntr).dedup.length ≠ 1 then
    { success := false, message := "No valid data", sourceInserted := false
      sourceCntr := none, rawSaved := [], epochsW1 := [], epochsW2 := [] }
  else
    let cntr := (rows.headD default).allwise_cntr
    let cut := applyMjdCutoff zp rows
    if cut.isEmpty then
      { success := false, message := "No valid data", sourceInserted := true
        sourceCntr := some cntr, rawSaved := [], epochsW1 := [], epochsW2 := [] }
    else
      let w1 := processBandDefault pw sq lg zp cut Band.W1
      let w2 := processBandDefault pw sq lg zp cut Band.W2
      if w1.isEmpty && w2.isEmpty then
        { success := false, message := "No valid data", sourceInserted := true
          sourceCntr := some cntr, rawSaved := saveRawObservations zp cut
          epochsW1 := w1, epochsW2 := w2 }
      else
        { success := true, message := "Success", sourceInserted := true
          sourceCntr := some cntr, rawSaved := saveRawObservations zp cut
          epochsW1 := w1, epochsW2 := w2 }

/-! ## Retry controllers -/

/-- Sleep after failed attempt `k` (1-indexed) in `get_neowise_threadsafe`
(line 93): `2 ** (attempt - 1) + 0.1 * attempt`. -/
def tsSleep (k : ℕ) : ℚ := 2 ^ (k - 1) + (k : ℚ) / 10

/-- Sleep after failed attempt `k` (1-indexed) in `_process_single_source`
(line 771): `2 ** attempt` with `attempt` 0-indexed, i.e. `2 ** (k - 1)`. -/
def protoSleep (k : ℕ) : ℚ := 2 ^ (k - 1)

/-- Result of one remote attempt: a successful fetch or a raised error. -/
inductive FetchOutcome where
  | ok : FetchOutcome
  | error : String → FetchOutcome
deriving DecidableEq, Inhabited

/-- The retry loop shared by both workers: attempt `k`, then up to `fuel`
further attempts; each failure before the last sleeps `sleep k`.  Returns
the final outcome (the last error when all attempts fail) and the sleeps
performed, in order. -/
def retryAux (sleep : ℕ → ℚ) (res : ℕ → FetchOutcome) :
    ℕ → ℕ → FetchOutcome × List ℚ
  | k, 0 => (res k, [])
  | k, fuel + 1 =>
    match res k with
    | FetchOutcome.ok => (FetchOutcome.ok, [])
    | FetchOutcome.error _ =>
      let p := retryAux sleep res (k + 1) fuel
      (p.1, sleep k :: p.2)

/-- The retry loop of `get_neowise_threadsafe` (lines 73-95), `max_attempts`
attempts starting at attempt 1. -/
def retryThreadsafe (res : ℕ → FetchOutcome) (maxAttempts : ℕ) :
    FetchOutcome × List ℚ :=
  retryAux tsSleep res 1 (maxAttempts - 1)

/-- The retry loop of `_process_single_source` (lines 747-777). -/
def retryPrototype (res : ℕ → FetchOutcome) (maxAttempts : ℕ) :
    FetchOutcome × List ℚ :=
  retryAux protoSleep res 1 (maxAttempts - 1)

/-! ## Query Service coordinate lookup -/

/-- One row of the `sources` table as read back by the query layer. -/
structure SourceRow where
  source_id : String
  ra : ℚ
  dec : ℚ
deriving DecidableEq, Inhabited

/-- Square of the small-angle Euclidean distance
`((ra - ra_s)² + (dec - dec_s)²) ** 0.5`; every comparison of distances in
the sources is encoded by the equivalent comparison of squares. -/
def distSq (ra dec : ℚ) (s : SourceRow) : ℚ :=
  (s.ra - ra) ^ 2 + (s.dec - dec) ^ 2

/-- `sources.loc[sources['distance'].idxmin()]` (and the strict-`<` running
minimum of `find_lightcurve_file`): the first row of minimal distance. -/
def nearestSource : List SourceRow → ℚ → ℚ → Option SourceRow
  | [], _, _ => none
  | s :: ss, ra, dec =>
    match nearestSource ss ra dec with
    | none => some s
    | some t => if distSq ra dec t < distSq ra dec s then some t else some s

/-- Coordinate lookup of `app_custom.py::get_neowise_lightcurve` (lines
164-180): 404 when the database is empty or the nearest source is farther
than 0.00083 degrees (`closest['distance'] > 0.00083`, encoded squared). -/
def lookupQueryCustom (srcs : List SourceRow) (ra dec : ℚ) : Option SourceRow :=
  match nearestSource srcs ra dec with
  | none => none
  | some s => if (83 / 100000 : ℚ) ^ 2 < distSq ra dec s then none else some s

/-- Coordinate lookup of `solution1/backend/app.py::find_lightcurve_file`
(lines 86-111): a file is returned only when `min_distance < 0.00083`
(strict, encoded squared). -/
def lookupSol1 (srcs : List SourceRow) (ra dec : ℚ) : Option SourceRow :=
  match nearestSource srcs ra dec with
  | none => none
  | some s => if distSq ra dec s < (83 / 100000 : ℚ) ^ 2 then some s else none

/-! ## Query-side filtered endpoint (`get_neowise_filtered_data`) -/

/-- The ten quality toggles of the filtered endpoint. -/
structure Toggles where
  cc_flags : Bool
  sso_flg : Bool
  qi_fact : Bool
  saa_sep : Bool
  ph_qual : Bool
  moon_masked : Bool
  sat : Bool
  rchi2 : Bool
  qual_frame : Bool
  sky : Bool
deriving DecidableEq, Inhabited

/-- The mask of `get_neowise_filtered_data` (`app_custom.py`, lines 484-514):
each enabled toggle conjoins its predicate (the string predicates also check
`str.len() > band_idx`, as the endpoint does). -/
def rowPasses (tg : Toggles) (b : Band) (s : StoredObs) : Bool :=
  (!tg.cc_flags || (decide (bandIdx b < s.cc_flags.length) &&
      (strAt s.cc_flags (bandIdx b) == some '0'))) &&
  (!tg.sso_flg || (s.sso_flg == 0)) &&
  (!tg.qi_fact || (s.qi_fact == 1)) &&
  (!tg.saa_sep || decide (5 ≤ s.saa_sep)) &&
  (!tg.ph_qual || (decide (bandIdx b < s.ph_qual.length) &&
      (strAt s.ph_qual (bandIdx b) == some 'A'))) &&
  (!tg.moon_masked || (decide (bandIdx b < s.moon_masked.length) &&
      (strAt s.moon_masked (bandIdx b) == some '0'))) &&
  (!tg.sat || decide (s.sat ≤ 1/20)) &&
  (!tg.rchi2 || decide (s.rchi2 ≤ 50)) &&
  (!tg.qual_frame || decide (0 < s.qual_frame)) &&
  (!tg.sky || s.sky.isSome)

/-- `filtered_data = data[mask]`. -/
def endpointFiltered (tg : Toggles) (b : Band) (rows : List StoredObs) : List StoredObs :=
  rows.filter (rowPasses tg b)

/-- One record of the endpoint's `data` array. -/
structure DataPoint where
  mjd : ℚ
  mag : ℚ
  mag_err : Option ℚ
deriving DecidableEq, Inhabited

/-- `mag` selection (`mpro_corrected` under the zero-point toggle, `mpro`
otherwise) and `mag_err = sigmpro`. -/
def projPoint (zpc : Bool) (s : StoredObs) : DataPoint :=
  { mjd := s.mjd, mag := if zpc then s.mpro_corrected else s.mpro, mag_err := s.sigmpro }

/-- The rows returned by the filtered endpoint: mask, magnitude selection,
then optional 3σ clipping. -/
def endpointData (tg : Toggles) (zpc sc : Bool) (b : Band) (rows : List StoredObs) :
    List DataPoint :=
  if sc then sigmaClip3 DataPoint.mag ((endpointFiltered tg b rows).map (projPoint zpc))
  else (endpointFiltered tg b rows).map (projPoint zpc)

/-- All ten toggles disabled. -/
def togglesOff : Toggles :=
  { cc_flags := false, sso_flg := false, qi_fact := false, saa_sep := false
    ph_qual := false, moon_masked := false, sat := false, rchi2 := false
    qual_frame := false, sky := false }

/-- All ten toggles enabled (the endpoint defaults). -/
def togglesOn : Toggles :=
  { cc_flags := true, sso_flg := true, qi_fact := true, saa_sep := true
    ph_qual := true, moon_masked := true, sat := true, rchi2 := true
    qual_frame := true, sky := true }

/-- `tg` enables a subset of the toggles of `tg'`. -/
def ToggleLE (tg tg' : Toggles) : Prop :=
  (tg.cc_flags = true → tg'.cc_flags = true) ∧
  (tg.sso_flg = true → tg'.sso_flg = true) ∧
  (tg.qi_fact = true → tg'.qi_fact = true) ∧
  (tg.saa_sep = true → tg'.saa_sep = true) ∧
  (tg.ph_qual = true → tg'.ph_qual = true) ∧
  (tg.moon_masked = true → tg'.moon_masked = true) ∧
  (tg.sat = true → tg'.sat = true) ∧
  (tg.rchi2 = true → tg'.rchi2 = true) ∧
  (tg.qual_frame = true → tg'.qual_frame = true) ∧
  (tg.sky = true → tg'.sky = true)

/-! ## Concrete inputs used by witnesses and counterexamples -/

/-- A row failing the `ph_qual` default predicate in both bands
(`ph_qual[i] != 'A'`), everything else passing. -/
def rowNoQual : RawRow := { mkRow 0 (some 0) with ph_qual := "BB" }

def rowsNoQual : List RawRow := [rowNoQual]

/-- A quality-passing row with a chosen `allwise_cntr`. -/
def rowCntr (c : ℤ) (mjd : ℚ) : RawRow := { mkRow mjd (some 0) with allwise_cntr := c }

/-- An ambiguous remote result: three rows of `allwise_cntr = 7`, two of
`allwise_cntr = 9`. -/
def rowsAmb : List RawRow :=
  [rowCntr 7 0, rowCntr 7 1, rowCntr 7 2, rowCntr 9 3, rowCntr 9 4]

/-- A stored source exactly 3 arcseconds (0.00083 degrees) in RA away from
the query point `(0, 0)`. -/
def srcBoundary : SourceRow := { source_id := "S1", ra := 83 / 100000, dec := 0 }

/-- A one-row zero-point table: scan `s1`, minimum MJD 50, offsets
`w1dmag = 0.1`, `w2dmag = 0.2`. -/
def zpT0 : List ZpEntry := [{ scan_id := "s1", mjd := 50, w1dmag := 1/10, w2dmag := 1/5 }]

/-- Two rows for the cutoff test: MJD 60 (kept, scan `s1`) and MJD 40
(dropped by the cutoff). -/
def rowZpA : RawRow := { mkRow 60 (some 1) with w1mpro := some 10, scan_id := "s1" }

def rowZpB : RawRow := { mkRow 40 (some 1) with w1mpro := some 10, scan_id := "s1" }

def rowsZp : List RawRow := [rowZpA, rowZpB]

/-- Remote outcome sequence: attempts 1 and 2 fail with HTTP 503, attempt 3
(and later) succeed. -/
def resFF (k : ℕ) : FetchOutcome :=
  if 3 ≤ k then FetchOutcome.ok else FetchOutcome.error "503 Server Error"

/-- Remote outcome sequence: attempt `k` fails with a numbered error. -/
def resFailAll (k : ℕ) : FetchOutcome :=
  FetchOutcome.error (Nat.repr k)

/-! ## Theorems -/

theorem processBand_ids_perm (pw : ℚ → ℚ) (sq : SqrtFn) (lg : ℚ → ℚ)
    (zp : Option (List ZpEntry)) (rows : List RawRow) (b : Band) :
    ((processBandDefault pw sq lg zp rows b).map EpochRow.epoch_id).Perm
      (goodEpochIds pw (pairsOf (clippedBand zp rows b))) := by
  unfold processBandDefault
  set ps := pairsOf (clippedBand zp rows b) with hps
  set items := (goodEpochIds pw ps).map (fun e => epochRowOf pw sq lg e (rowsForId ps e))
    with hitems
  have h1 : (List.insertionSort (fun a b => a.1 ≤ b.1) items).Perm items :=
    List.perm_insertionSort _ _
  have h2 : ((List.insertionSort (fun a b => a.1 ≤ b.1) items).map Prod.snd).map
      EpochRow.epoch_id =
      (List.insertionSort (fun a b => a.1 ≤ b.1) items).map
        (fun p => p.2.epoch_id) := by
    rw [List.map_map]; rfl
  have h3 : items.map (fun p : ℚ × EpochRow => p.2.epoch_id) = goodEpochIds pw ps := by
    rw [hitems, List.map_map]
    have : ((fun p : ℚ × EpochRow => p.2.epoch_id) ∘
        fun e => epochRowOf pw sq lg e (rowsForId ps e)) = fun e => e := by
      funext e; rfl
    rw [this, List.map_id']
  rw [h2]
  exact (h1.map _).trans (h3 ▸ List.Perm.refl _)

/-- C1: for every band of every source, the epoch ids written to the summary
are exactly (as a multiset) the grouped epochs whose SNR
`Σflux / √Σflux_err²` is at least 300 (`snrGe 300`, the flux-error square
sum skipping null-`sigmpro` rows as pandas does); when no epoch reaches
300, exactly those with SNR at least 10; and when no epoch reaches 10
either, the band's result is the empty list rather than an error. -/
theorem c1_snr_selection (pw : ℚ → ℚ) (sq : SqrtFn) (lg : ℚ → ℚ)
    (zp : Option (List ZpEntry)) (rows : List RawRow) (b : Band) :
    ((processBandDefault pw sq lg zp rows b).map EpochRow.epoch_id).Perm
      (let ps := pairsOf (clippedBand zp rows b)
       let ids := presentEpochIds ps
       let g300 := ids.filter (fun e => snrGe 300 (epochFluxSum pw ps e) (epochErrSq pw ps e))
       let g10 := ids.filter (fun e => snrGe 10 (epochFluxSum pw ps e) (epochErrSq pw ps e))
       if g300 = [] then (if g10 = [] then [] else g10) else g300) := by
  have h := processBand_ids_perm pw sq lg zp rows b
  have heq : goodEpochIds pw (pairsOf (clippedBand zp rows b)) =
      (let ps := pairsOf (clippedBand zp rows b)
       let ids := presentEpochIds ps
       let g300 := ids.filter (fun e => snrGe 300 (epochFluxSum pw ps e) (epochErrSq pw ps e))
       let g10 := ids.filter (fun e => snrGe 10 (epochFluxSum pw ps e) (epochErrSq pw ps e))
       if g300 = [] then (if g10 = [] then [] else g10) else g300) := by
    simp only [goodEpochIds, List.isEmpty_iff]
  exact heq ▸ h

/-- C2: over a band table sorted ascending by mjd, `epoch_id` at each row is
the cumulative count of the predicate `(mjd[i] - mjd[i-1]) ≥ 100` (first row
0), and any two rows in different epochs — in particular the last row of one
epoch and the first row of the next — are at least 100 days apart. -/
theorem c2_epoch_grouping (n : ℕ) (mjd : ℕ → ℚ)
    (hs : ∀ i, i < n → mjd i ≤ mjd (i + 1)) :
    (∀ i, i ≤ n → epochIdF mjd i =
        ((List.range i).filter (fun k => decide (100 ≤ mjd (k + 1) - mjd k))).length) ∧
    (∀ j, j ≤ n → ∀ i, i < j → epochIdF mjd i < epochIdF mjd j →
        100 ≤ mjd j - mjd i) :=
  ⟨fun i _ => epochIdF_eq_count mjd i, epochIdF_gap n mjd hs⟩

theorem c2_epoch_grouping_witness :
    (∀ i, i < 3 → (150 : ℚ) * i ≤ 150 * (i + 1 : ℕ)) ∧
    ((∀ i, i ≤ 3 → epochIdF (fun i : ℕ => (150 : ℚ) * i) i =
        ((List.range i).filter
          (fun k => decide (100 ≤ (150 : ℚ) * (k + 1 : ℕ) - 150 * k))).length) ∧
     (∀ j, j ≤ 3 → ∀ i, i < j →
        epochIdF (fun i : ℕ => (150 : ℚ) * i) i < epochIdF (fun i : ℕ => (150 : ℚ) * i) j →
        100 ≤ (150 : ℚ) * j - 150 * i)) :=
  ⟨by with_unfolding_all decide,
   c2_epoch_grouping 3 (fun i : ℕ => (150 : ℚ) * i) (by with_unfolding_all decide)⟩

theorem round4_nonneg {q : ℚ} (h : 0 ≤ q) : 0 ≤ round4 q := by
  unfold round4
  have h1 : (0 : ℤ) ≤ round (q * 10000) := by
    rw [round_eq]
    have : (0 : ℚ) ≤ q * 10000 + 1/2 := by linarith
    exact Int.floor_nonneg.mpr this
  positivity

theorem round4_zero : round4 0 = 0 := by
  unfold round4
  norm_num

theorem sampleVar_nonneg (xs : List ℚ) : 0 ≤ sampleVar xs := by
  unfold sampleVar
  split
  · exact le_refl 0
  · rename_i h
    apply div_nonneg
    · apply List.sum_nonneg
      intro x hx
      rw [List.mem_map] at hx
      obtain ⟨y, _, rfl⟩ := hx
      positivity
    · have : 2 ≤ xs.length := by omega
      have : (2 : ℚ) ≤ xs.length := by exact_mod_cast this
      linarith

theorem goodEpochIds_subset (pw : ℚ → ℚ) (ps : List (CRow × ℕ)) {e : ℕ}
    (h : e ∈ goodEpochIds pw ps) : e ∈ presentEpochIds ps := by
  unfold goodEpochIds at h
  split at h
  · split at h
    · simp at h
    · exact (List.mem_filter.mp h).1
  · exact (List.mem_filter.mp h).1

theorem goodEpochIds_nodup (pw : ℚ → ℚ) (ps : List (CRow × ℕ)) :
    (goodEpochIds pw ps).Nodup := by
  have hd : (presentEpochIds ps).Nodup := List.nodup_dedup _
  unfold goodEpochIds
  split
  · split
    · exact List.nodup_nil
    · exact hd.filter _
  · exact hd.filter _

theorem rowsForId_ne_nil (ps : List (CRow × ℕ)) {e : ℕ}
    (h : e ∈ presentEpochIds ps) : rowsForId ps e ≠ [] := by
  unfold presentEpochIds at h
  rw [List.mem_dedup, List.mem_map] at h
  obtain ⟨p, hp, hpe⟩ := h
  unfold rowsForId
  intro hnil
  rw [List.map_eq_nil_iff, List.filter_eq_nil_iff] at hnil
  exact hnil p hp (by simp [hpe])

theorem mem_processBand (pw : ℚ → ℚ) (sq : SqrtFn) (lg : ℚ → ℚ)
    (zp : Option (List ZpEntry)) (rows : List RawRow) (b : Band) {er : EpochRow}
    (h : er ∈ processBandDefault pw sq lg zp rows b) :
    ∃ e ∈ goodEpochIds pw (pairsOf (clippedBand zp rows b)),
      er = (epochRowOf pw sq lg e (rowsForId (pairsOf (clippedBand zp rows b)) e)).2 := by
  unfold processBandDefault at h
  set ps := pairsOf (clippedBand zp rows b) with hps
  rw [List.mem_map] at h
  obtain ⟨p, hp, hpe⟩ := h
  have hp' : p ∈ (goodEpochIds pw ps).map
      (fun e => epochRowOf pw sq lg e (rowsForId ps e)) :=
    (List.perm_insertionSort _ _).mem_iff.mp hp
  rw [List.mem_map] at hp'
  obtain ⟨e, he, hef⟩ := hp'
  exact ⟨e, he, by rw [← hpe, ← hef]⟩

/-- C3 (amended): every produced EpochSummary row has `n_points ≥ 1` and
`mag_se ≥ 0`, with `mag_se = 0` when `n_points = 1`; the epoch ids of one
band's rows are pairwise distinct (but, contrary to the original claim, not
necessarily contiguous — see the counterexample). -/
theorem c3_epoch_summary_invariants (pw : ℚ → ℚ) (sq : SqrtFn) (lg : ℚ → ℚ)
    (zp : Option (List ZpEntry)) (rows : List RawRow) (b : Band) (er : EpochRow)
    (her : er ∈ processBandDefault pw sq lg zp rows b) :
    1 ≤ er.n_points ∧ 0 ≤ er.mag_se ∧ (er.n_points = 1 → er.mag_se = 0) ∧
    ((processBandDefault pw sq lg zp rows b).map EpochRow.epoch_id).Nodup := by
  obtain ⟨e, he, rfl⟩ := mem_processBand pw sq lg zp rows b her
  set g := rowsForId (pairsOf (clippedBand zp rows b)) e with hg
  have hgne : g ≠ [] :=
    rowsForId_ne_nil _ (goodEpochIds_subset pw _ he)
  have hlen : 1 ≤ g.length := List.length_pos.mpr hgne
  have hnp : (epochRowOf pw sq lg e g).2.n_points = g.length := rfl
  have hse : (epochRowOf pw sq lg e g).2.mag_se =
      round4 (if 1 < g.length then
          sq.f (sampleVar (g.map CRow.mag)) / sq.f (g.length : ℚ) else 0) := rfl
  refine ⟨by omega, ?_, ?_, ?_⟩
  · rw [hse]
    apply round4_nonneg
    split
    · rename_i hn
      apply div_nonneg
      · exact sq.nonneg _ (sampleVar_nonneg _)
      · have : (1 : ℚ) ≤ (g.length : ℚ) := by exact_mod_cast hlen
        exact le_of_lt (sq.pos _ this)
    · exact le_refl 0
  · intro h1
    rw [hnp] at h1
    rw [hse, h1]
    simp [round4_zero]
  · have hperm := processBand_ids_perm pw sq lg zp rows b
    exact hperm.nodup_iff.mpr (goodEpochIds_nodup pw _)

/-- C3 counterexample: with three exactly-representable single-row epochs
whose SNRs are inf, 1/9, inf, the SNR ≥ 300 cut keeps epochs {0, 2}: the
stored epoch ids of a band are not a contiguous subset of {0,1,2,...}. -/
theorem c3_contiguity_counterexample :
    ((processBandDefault pow10ex sqrtId (fun q => q) none rowsGap Band.W1).map
        EpochRow.epoch_id) = [0, 2] ∧ isContiguous [0, 2] = false := by
  constructor
  · with_unfolding_all decide
  · with_unfolding_all decide

theorem c3_epoch_summary_invariants_witness :
    ((processBandDefault pow10ex sqrtId (fun q => q) none rowsGap Band.W1).headD default
        ∈ processBandDefault pow10ex sqrtId (fun q => q) none rowsGap Band.W1) ∧
    (1 ≤ ((processBandDefault pow10ex sqrtId (fun q => q) none rowsGap
        Band.W1).headD default).n_points ∧
     0 ≤ ((processBandDefault pow10ex sqrtId (fun q => q) none rowsGap
        Band.W1).headD default).mag_se ∧
     (((processBandDefault pow10ex sqrtId (fun q => q) none rowsGap
        Band.W1).headD default).n_points = 1 →
      ((processBandDefault pow10ex sqrtId (fun q => q) none rowsGap
        Band.W1).headD default).mag_se = 0) ∧
     ((processBandDefault pow10ex sqrtId (fun q => q) none rowsGap Band.W1).map
        EpochRow.epoch_id).Nodup) :=
  ⟨by with_unfolding_all decide,
   c3_epoch_summary_invariants pow10ex sqrtId (fun q => q) none rowsGap Band.W1
     ((processBandDefault pow10ex sqrtId (fun q => q) none rowsGap Band.W1).headD default)
     (by with_unfolding_all decide)⟩

theorem defaultFilter_false_of_phqual {b : Band} {r : RawRow}
    (h : strAt r.ph_qual (bandIdx b) ≠ some 'A') : defaultFilter b r = false := by
  have hb : (strAt r.ph_qual (bandIdx b) == some 'A') = false :=
    beq_eq_false_iff_ne.mpr h
  simp [defaultFilter, hb]

theorem processBand_eq_nil (pw : ℚ → ℚ) (sq : SqrtFn) (lg : ℚ → ℚ)
    (zp : Option (List ZpEntry)) (rows : List RawRow) (b : Band)
    (h : ∀ r ∈ rows, defaultFilter b r = false) :
    processBandDefault pw sq lg zp rows b = [] := by
  have h1 : (rows.filter (fun r => (bandMpro b r).isSome)).filter
      (fun r => defaultFilter b r) = [] := by
    rw [List.filter_eq_nil_iff]
    intro r hr
    simp [h r (List.mem_of_mem_filter hr)]
  unfold processBandDefault clippedBand
  rw [h1]
  rfl

theorem mem_saveBandRows (zp : Option (List ZpEntry)) (b : Band) (rows : List RawRow)
    {r : RawRow} {m : ℚ} (hr : r ∈ rows) (hm : bandMpro b r = some m) :
    ∃ s ∈ saveBandRows zp b rows, s.band = b ∧ s.mjd = r.mjd ∧ s.mpro = round4 m := by
  refine ⟨{ mjd := r.mjd, band := b, mpro := round4 m
            sigmpro := (bandSigmpro b r).map round4, cc_flags := r.cc_flags
            ph_qual := r.ph_qual, moon_masked := r.moon_masked, sso_flg := r.sso_flg
            qi_fact := r.qi_fact, saa_sep := r.saa_sep, sat := bandSat b r
            rchi2 := bandRchi2 b r, qual_frame := r.qual_frame, sky := bandSky b r
            scan_id := r.scan_id
            mpro_corrected := round4 (mproCorrectedVal zp b r.scan_id m) },
         List.mem_filterMap.mpr ⟨r, hr, by rw [hm]; rfl⟩, rfl, rfl, rfl⟩

theorem mem_saveRawObservations (zp : Option (List ZpEntry)) (rows : List RawRow)
    {r : RawRow} {m : ℚ} (hr : r ∈ rows) (b : Band) (hm : bandMpro b r = some m) :
    ∃ s ∈ saveRawObservations zp rows, s.band = b ∧ s.mjd = r.mjd ∧ s.mpro = round4 m := by
  cases b with
  | W1 =>
    obtain ⟨s, hs, hsp⟩ := mem_saveBandRows zp Band.W1 rows hr hm
    exact ⟨s, List.mem_append_left _ hs, hsp⟩
  | W2 =>
    obtain ⟨s, hs, hsp⟩ := mem_saveBandRows zp Band.W2 rows hr hm
    exact ⟨s, List.mem_append_right _ hs, hsp⟩

/-- C4 (amended): when the remote result is non-empty, unambiguous, survives
the MJD cutoff, but every row fails the default `ph_qual` predicate, the
Source row and all per-band raw rows (every row with a non-null band
magnitude) are still inserted and zero EpochSummary rows are written; the
threadsafe worker then reports success, but the prototype parallel worker
reports the source as FAILED with `"No valid data"` — not as a success as
originally claimed. -/
theorem c4_zero_after_filter (pw : ℚ → ℚ) (sq : SqrtFn) (lg : ℚ → ℚ)
    (zp : Option (List ZpEntry)) (rows : List RawRow)
    (hne : rows ≠ [])
    (hcntr : (rows.map RawRow.allwise_cntr).dedup.length = 1)
    (hcut : applyMjdCutoff zp rows = rows)
    (hq : ∀ r ∈ rows, strAt r.ph_qual (bandIdx Band.W1) ≠ some 'A' ∧
                      strAt r.ph_qual (bandIdx Band.W2) ≠ some 'A') :
    (prototypeIngest pw sq lg zp rows).success = false ∧
    (prototypeIngest pw sq lg zp rows).message = "No valid data" ∧
    (prototypeIngest pw sq lg zp rows).sourceInserted = true ∧
    (prototypeIngest pw sq lg zp rows).rawSaved = saveRawObservations zp rows ∧
    (prototypeIngest pw sq lg zp rows).epochsW1 = [] ∧
    (prototypeIngest pw sq lg zp rows).epochsW2 = [] ∧
    (∀ r ∈ rows, ∀ b : Band, ∀ m : ℚ, bandMpro b r = some m →
      ∃ s ∈ (prototypeIngest pw sq lg zp rows).rawSaved,
        s.band = b ∧ s.mjd = r.mjd ∧ s.mpro = round4 m) ∧
    (threadsafeIngest pw sq lg zp rows).success = true ∧
    (threadsafeIngest pw sq lg zp rows).message = "Success" := by
  have hW1 : processBandDefault pw sq lg zp rows Band.W1 = [] :=
    processBand_eq_nil pw sq lg zp rows Band.W1
      (fun r hr => defaultFilter_false_of_phqual (hq r hr).1)
  have hW2 : processBandDefault pw sq lg zp rows Band.W2 = [] :=
    processBand_eq_nil pw sq lg zp rows Band.W2
      (fun r hr => defaultFilter_false_of_phqual (hq r hr).2)
  have h1 : rows.isEmpty = false := by
    simpa [List.isEmpty_iff] using hne
  have hpi : prototypeIngest pw sq lg zp rows =
      { success := false, message := "No valid data", sourceInserted := true
        sourceCntr := some ((rows.headD default).allwise_cntr)
        rawSaved := saveRawObservations zp rows
        epochsW1 := [], epochsW2 := [] } := by
    unfold prototypeIngest
    simp [h1, hcntr, hcut, hW1, hW2]
  have hts : threadsafeIngest pw sq lg zp rows =
      { success := true, message := "Success"
        sourceCntr := some ((rows.headD default).allwise_cntr)
        rawSaved := saveRawObservations zp rows
        epochsW1 := processBandDefault pw sq lg zp rows Band.W1
        epochsW2 := processBandDefault pw sq lg zp rows Band.W2 } := by
    unfold threadsafeIngest
    simp [h1, hcntr, hcut, hW1, hW2]
  refine ⟨by rw [hpi], by rw [hpi], by rw [hpi], by rw [hpi], by rw [hpi], by rw [hpi],
    ?_, by rw [hts], by rw [hts]⟩
  intro r hr b m hm
  rw [hpi]
  exact mem_saveRawObservations zp rows hr b hm

/-- C4 counterexample: a non-empty fetch whose single row fails `ph_qual`
in both bands: the prototype worker inserts the Source row and the raw
observations but reports the source as FAILED (`"No valid data"`), refuting
the claimed "success reported". -/
theorem c4_counterexample :
    (prototypeIngest pow10ex sqrtId (fun q => q) none rowsNoQual).success = false ∧
    (prototypeIngest pow10ex sqrtId (fun q => q) none rowsNoQual).message = "No valid data" ∧
    (prototypeIngest pow10ex sqrtId (fun q => q) none rowsNoQual).sourceInserted = true ∧
    (prototypeIngest pow10ex sqrtId (fun q => q) none rowsNoQual).rawSaved ≠ [] := by
  refine ⟨?_, ?_, ?_, ?_⟩ <;> with_unfolding_all decide

theorem c4_zero_after_filter_witness :
    (rowsNoQual ≠ [] ∧
     (rowsNoQual.map RawRow.allwise_cntr).dedup.length = 1 ∧
     applyMjdCutoff none rowsNoQual = rowsNoQual ∧
     (∀ r ∈ rowsNoQual, strAt r.ph_qual (bandIdx Band.W1) ≠ some 'A' ∧
        strAt r.ph_qual (bandIdx Band.W2) ≠ some 'A')) ∧
    ((prototypeIngest pow10ex sqrtId (fun q => q) none rowsNoQual).success = false ∧
     (prototypeIngest pow10ex sqrtId (fun q => q) none rowsNoQual).message = "No valid data" ∧
     (prototypeIngest pow10ex sqrtId (fun q => q) none rowsNoQual).sourceInserted = true ∧
     (prototypeIngest pow10ex sqrtId (fun q => q) none rowsNoQual).rawSaved =
        saveRawObservations none rowsNoQual ∧
     (prototypeIngest pow10ex sqrtId (fun q => q) none rowsNoQual).epochsW1 = [] ∧
     (prototypeIngest pow10ex sqrtId (fun q => q) none rowsNoQual).epochsW2 = [] ∧
     (∀ r ∈ rowsNoQual, ∀ b : Band, ∀ m : ℚ, bandMpro b r = some m →
       ∃ s ∈ (prototypeIngest pow10ex sqrtId (fun q => q) none rowsNoQual).rawSaved,
         s.band = b ∧ s.mjd = r.mjd ∧ s.mpro = round4 m) ∧
     (threadsafeIngest pow10ex sqrtId (fun q => q) none rowsNoQual).success = true ∧
     (threadsafeIngest pow10ex sqrtId (fun q => q) none rowsNoQual).message = "Success") :=
  ⟨⟨by with_unfolding_all decide, by with_unfolding_all decide,
    by with_unfolding_all decide, by with_unfolding_all decide⟩,
   c4_zero_after_filter pow10ex sqrtId (fun q => q) none rowsNoQual
     (by with_unfolding_all decide) (by with_unfolding_all decide)
     (by with_unfolding_all decide) (by with_unfolding_all decide)⟩

theorem retryAux_all_fail (sleep : ℕ → ℚ) (res : ℕ → FetchOutcome) (err : ℕ → String) :
    ∀ fuel k, (∀ j, j ≤ k + fuel → k ≤ j → res j = FetchOutcome.error (err j)) →
      retryAux sleep res k fuel =
        (FetchOutcome.error (err (k + fuel)), (List.range' k fuel).map sleep) := by
  intro fuel
  induction fuel with
  | zero =>
    intro k h
    simp [retryAux, h k (by omega) le_rfl]
  | succ fuel ih =>
    intro k h
    rw [retryAux, h k (by omega) le_rfl]
    have hrec := ih (k + 1) (fun j hj1 hj2 => h j (by omega) (by omega))
    rw [hrec, List.range'_succ, List.map_cons]
    have : k + 1 + fuel = k + (fuel + 1) := by omega
    rw [this]

theorem retryAux_succeeds (sleep : ℕ → ℚ) (res : ℕ → FetchOutcome) (err : ℕ → String) :
    ∀ t fuel k, t ≤ fuel → res (k + t) = FetchOutcome.ok →
      (∀ j, j < k + t → k ≤ j → res j = FetchOutcome.error (err j)) →
      retryAux sleep res k fuel = (FetchOutcome.ok, (List.range' k t).map sleep) := by
  intro t
  induction t with
  | zero =>
    intro fuel k _ hok _
    rw [Nat.add_zero] at hok
    cases fuel with
    | zero => simp [retryAux, hok]
    | succ fuel => rw [retryAux, hok]; rfl
  | succ t ih =>
    intro fuel k ht hok hfail
    cases fuel with
    | zero => omega
    | succ fuel =>
      rw [retryAux, hfail k (by omega) le_rfl]
      have hrec := ih fuel (k + 1) (by omega)
        (by rw [show k + 1 + t = k + (t + 1) by omega]; exact hok)
        (fun j hj1 hj2 => hfail j (by omega) (by omega))
      rw [hrec, List.range'_succ, List.map_cons]

/-- C5 (amended): both workers make at most `max_attempts` attempts and
return the last error after the final failure; after a failed attempt `k`
(1-indexed, `k < max_attempts`) the THREADSAFE worker sleeps exactly
`2^(k-1) + 0.1·k` seconds as claimed (so two failures then success sleeps
{1.1 s, 2.2 s}), but the PROTOTYPE parallel worker sleeps `2^(k-1)` seconds
(so {1 s, 2 s} in the same scenario). -/
theorem c5_retry_backoff (res resF : ℕ → FetchOutcome) (err errF : ℕ → String)
    (m k0 : ℕ) (hm : 1 ≤ m) (hk0 : 1 ≤ k0) (hk0m : k0 ≤ m)
    (hok : res k0 = FetchOutcome.ok)
    (hfail : ∀ j, j < k0 → 1 ≤ j → res j = FetchOutcome.error (err j))
    (hallf : ∀ j, j ≤ m → 1 ≤ j → resF j = FetchOutcome.error (errF j)) :
    retryThreadsafe res m = (FetchOutcome.ok, (List.range' 1 (k0 - 1)).map tsSleep) ∧
    retryPrototype res m = (FetchOutcome.ok, (List.range' 1 (k0 - 1)).map protoSleep) ∧
    retryThreadsafe resF m =
      (FetchOutcome.error (errF m), (List.range' 1 (m - 1)).map tsSleep) ∧
    retryPrototype resF m =
      (FetchOutcome.error (errF m), (List.range' 1 (m - 1)).map protoSleep) ∧
    ((List.range' 1 (m - 1)).map tsSleep).length = m - 1 ∧
    (∀ i : ℕ, tsSleep (i + 1) = 2 ^ i + ((i + 1 : ℕ) : ℚ) / 10) ∧
    (∀ i : ℕ, protoSleep (i + 1) = 2 ^ i) := by
  have hsucc : ∀ sleep : ℕ → ℚ, retryAux sleep res 1 (m - 1) =
      (FetchOutcome.ok, (List.range' 1 (k0 - 1)).map sleep) := by
    intro sleep
    apply retryAux_succeeds sleep res err (k0 - 1) (m - 1) 1 (by omega)
    · rw [show 1 + (k0 - 1) = k0 by omega]; exact hok
    · intro j hj1 hj2
      exact hfail j (by omega) hj2
  have hallfail : ∀ sleep : ℕ → ℚ, retryAux sleep resF 1 (m - 1) =
      (FetchOutcome.error (errF m), (List.range' 1 (m - 1)).map sleep) := by
    intro sleep
    have := retryAux_all_fail sleep resF errF (m - 1) 1
      (fun j hj1 hj2 => hallf j (by omega) hj2)
    rwa [show 1 + (m - 1) = m by omega] at this
  refine ⟨hsucc tsSleep, hsucc protoSleep, hallfail tsSleep, hallfail protoSleep, ?_, ?_, ?_⟩
  · rw [List.length_map, List.length_range']
  · intro i; rfl
  · intro i; rfl

/-- C5 counterexample: in the spec's scenario (two 503 failures, then
success) the prototype worker's retry loop sleeps [1 s, 2 s], not the
claimed {1.1 s, 2.2 s} (which only the threadsafe worker sleeps). -/
theorem c5_counterexample :
    (retryPrototype resFF 4).2 = [1, 2] ∧
    (retryThreadsafe resFF 4).2 = [11/10, 11/5] ∧
    ([1, 2] : List ℚ) ≠ [11/10, 11/5] := by
  refine ⟨?_, ?_, ?_⟩ <;> with_unfolding_all decide

theorem c5_retry_backoff_witness :
    (resFF 3 = FetchOutcome.ok ∧
     (∀ j, j < 3 → 1 ≤ j → resFF j = FetchOutcome.error "503 Server Error") ∧
     (∀ j, j ≤ 4 → 1 ≤ j → resFailAll j = FetchOutcome.error (Nat.repr j))) ∧
    (retryThreadsafe resFF 4 = (FetchOutcome.ok, (List.range' 1 (3 - 1)).map tsSleep) ∧
     retryPrototype resFF 4 = (FetchOutcome.ok, (List.range' 1 (3 - 1)).map protoSleep) ∧
     retryThreadsafe resFailAll 4 =
       (FetchOutcome.error (Nat.repr 4), (List.range' 1 (4 - 1)).map tsSleep) ∧
     retryPrototype resFailAll 4 =
       (FetchOutcome.error (Nat.repr 4), (List.range' 1 (4 - 1)).map protoSleep) ∧
     ((List.range' 1 (4 - 1)).map tsSleep).length = 4 - 1 ∧
     (∀ i : ℕ, tsSleep (i + 1) = 2 ^ i + ((i + 1 : ℕ) : ℚ) / 10) ∧
     (∀ i : ℕ, protoSleep (i + 1) = 2 ^ i)) :=
  ⟨⟨by decide, by decide, by decide⟩,
   c5_retry_backoff resFF resFailAll (fun _ => "503 Server Error") Nat.repr 4 3
     (by decide) (by decide) (by decide) (by decide) (by decide) (by decide)⟩

theorem applyMjdCutoff_nil (zp : Option (List ZpEntry)) : applyMjdCutoff zp [] = [] := by
  cases zp with
  | none => rfl
  | some t => simp [applyMjdCutoff]

theorem foldl_count_ge (l : List ℤ) (ds : List ℤ) : ∀ b : ℤ,
    l.count b ≤ l.count (ds.foldl
      (fun best c => if l.count best < l.count c then c else best) b) ∧
    ∀ c ∈ ds, l.count c ≤ l.count (ds.foldl
      (fun best c => if l.count best < l.count c then c else best) b) := by
  induction ds with
  | nil => intro b; exact ⟨le_rfl, by simp⟩
  | cons d ds ih =>
    intro b
    rw [List.foldl_cons]
    by_cases h : l.count b < l.count d
    · rw [if_pos h]
      refine ⟨le_trans (le_of_lt h) (ih d).1, ?_⟩
      intro c hc
      rcases List.mem_cons.mp hc with rfl | hc
      · exact (ih c).1
      · exact (ih d).2 c hc
    · rw [if_neg h]
      refine ⟨(ih b).1, ?_⟩
      intro c hc
      rcases List.mem_cons.mp hc with rfl | hc
      · exact le_trans (not_lt.mp h) (ih b).1
      · exact (ih b).2 c hc

theorem mostFrequentCntr_count (l : List ℤ) {c : ℤ} (hc : c ∈ l) :
    l.count c ≤ l.count (mostFrequentCntr l) := by
  unfold mostFrequentCntr
  exact (foldl_count_ge l l.dedup (l.headD 0)).2 c (List.mem_dedup.mpr hc)

/-- C6 (amended): on a successful fetch whose rows carry several distinct
`allwise_cntr` values, the THREADSAFE worker keeps exactly the rows of a
most-frequent value, writes that value as `Source.allwise_cntr`, and
reports success; the PROTOTYPE coordinate-search worker instead discards the
whole result and reports the source as failed (`"No valid data"`) without
inserting anything — the source IS failed for ambiguity alone there. -/
theorem c6_ambiguous_cntr (pw : ℚ → ℚ) (sq : SqrtFn) (lg : ℚ → ℚ)
    (zp : Option (List ZpEntry)) (rows : List RawRow)
    (hne : rows ≠ [])
    (hamb : (rows.map RawRow.allwise_cntr).dedup.length ≠ 1)
    (hcut : (applyMjdCutoff zp (rows.filter (fun r =>
        r.allwise_cntr == mostFrequentCntr (rows.map RawRow.allwise_cntr)))).isEmpty
      = false) :
    (threadsafeIngest pw sq lg zp rows).success = true ∧
    (threadsafeIngest pw sq lg zp rows).message = "Success" ∧
    (threadsafeIngest pw sq lg zp rows).sourceCntr =
      some (mostFrequentCntr (rows.map RawRow.allwise_cntr)) ∧
    (∀ c ∈ rows.map RawRow.allwise_cntr,
      (rows.map RawRow.allwise_cntr).count c ≤
        (rows.map RawRow.allwise_cntr).count
          (mostFrequentCntr (rows.map RawRow.allwise_cntr))) ∧
    (threadsafeIngest pw sq lg zp rows).rawSaved =
      saveRawObservations zp (applyMjdCutoff zp (rows.filter (fun r =>
        r.allwise_cntr == mostFrequentCntr (rows.map RawRow.allwise_cntr)))) ∧
    (prototypeIngest pw sq lg zp rows).success = false ∧
    (prototypeIngest pw sq lg zp rows).message = "No valid data" ∧
    (prototypeIngest pw sq lg zp rows).sourceInserted = false ∧
    (prototypeIngest pw sq lg zp rows).rawSaved = [] := by
  have h1 : rows.isEmpty = false := by simpa [List.isEmpty_iff] using hne
  set mf := mostFrequentCntr (rows.map RawRow.allwise_cntr) with hmf
  set filtered := rows.filter (fun r => r.allwise_cntr == mf) with hfiltered
  have hfne : filtered ≠ [] := by
    intro h0
    rw [h0, applyMjdCutoff_nil] at hcut
    simp at hcut
  have hhead : (filtered.headD default).allwise_cntr = mf := by
    have hmem : filtered.headD default ∈ rows.filter (fun r => r.allwise_cntr == mf) := by
      rw [← hfiltered]
      cases hf : filtered with
      | nil => exact absurd hf hfne
      | cons a t => simp
    have hp := List.of_mem_filter hmem
    simp only [beq_iff_eq] at hp
    exact hp
  have hts : threadsafeIngest pw sq lg zp rows =
      { success := true, message := "Success"
        sourceCntr := some ((filtered.headD default).allwise_cntr)
        rawSaved := saveRawObservations zp (applyMjdCutoff zp filtered)
        epochsW1 := processBandDefault pw sq lg zp (applyMjdCutoff zp filtered) Band.W1
        epochsW2 := processBandDefault pw sq lg zp (applyMjdCutoff zp filtered) Band.W2 } := by
    unfold threadsafeIngest
    simp [h1, hamb, hcut, ← hmf, ← hfiltered]
  have hpi : prototypeIngest pw sq lg zp rows =
      { success := false, message := "No valid data", sourceInserted := false
        sourceCntr := none, rawSaved := [], epochsW1 := [], epochsW2 := [] } := by
    unfold prototypeIngest
    simp [h1, hamb]
  refine ⟨by rw [hts], by rw [hts], by rw [hts, hhead], ?_,
    by rw [hts], by rw [hpi], by rw [hpi], by rw [hpi], by rw [hpi]⟩
  intro c hc
  exact mostFrequentCntr_count _ hc

/-- C6 counterexample: a fetch returning three rows with `allwise_cntr = 7`
and two with `allwise_cntr = 9`: the prototype coordinate-search worker
fails the source outright (nothing inserted), refuting "the worker keeps
only the rows of the most-frequent value and continues"; the threadsafe
worker does keep the three `7`-rows. -/
theorem c6_counterexample :
    (prototypeIngest pow10ex sqrtId (fun q => q) none rowsAmb).success = false ∧
    (prototypeIngest pow10ex sqrtId (fun q => q) none rowsAmb).sourceInserted = false ∧
    (prototypeIngest pow10ex sqrtId (fun q => q) none rowsAmb).rawSaved = [] ∧
    (threadsafeIngest pow10ex sqrtId (fun q => q) none rowsAmb).rawSaved.length = 3 ∧
    (threadsafeIngest pow10ex sqrtId (fun q => q) none rowsAmb).sourceCntr = some 7 := by
  refine ⟨?_, ?_, ?_, ?_, ?_⟩ <;> with_unfolding_all decide

theorem c6_ambiguous_cntr_witness :
    (rowsAmb ≠ [] ∧
     (rowsAmb.map RawRow.allwise_cntr).dedup.length ≠ 1 ∧
     (applyMjdCutoff none (rowsAmb.filter (fun r =>
        r.allwise_cntr == mostFrequentCntr (rowsAmb.map RawRow.allwise_cntr)))).isEmpty
       = false) ∧
    ((threadsafeIngest pow10ex sqrtId (fun q => q) none rowsAmb).success = true ∧
     (threadsafeIngest pow10ex sqrtId (fun q => q) none rowsAmb).message = "Success" ∧
     (threadsafeIngest pow10ex sqrtId (fun q => q) none rowsAmb).sourceCntr =
       some (mostFrequentCntr (rowsAmb.map RawRow.allwise_cntr)) ∧
     (∀ c ∈ rowsAmb.map RawRow.allwise_cntr,
       (rowsAmb.map RawRow.allwise_cntr).count c ≤
         (rowsAmb.map RawRow.allwise_cntr).count
           (mostFrequentCntr (rowsAmb.map RawRow.allwise_cntr))) ∧
     (threadsafeIngest pow10ex sqrtId (fun q => q) none rowsAmb).rawSaved =
       saveRawObservations none (applyMjdCutoff none (rowsAmb.filter (fun r =>
         r.allwise_cntr == mostFrequentCntr (rowsAmb.map RawRow.allwise_cntr)))) ∧
     (prototypeIngest pow10ex sqrtId (fun q => q) none rowsAmb).success = false ∧
     (prototypeIngest pow10ex sqrtId (fun q => q) none rowsAmb).message = "No valid data" ∧
     (prototypeIngest pow10ex sqrtId (fun q => q) none rowsAmb).sourceInserted = false ∧
     (prototypeIngest pow10ex sqrtId (fun q => q) none rowsAmb).rawSaved = []) :=
  ⟨⟨by with_unfolding_all decide, by with_unfolding_all decide,
    by with_unfolding_all decide⟩,
   c6_ambiguous_cntr pow10ex sqrtId (fun q => q) none rowsAmb
     (by with_unfolding_all decide) (by with_unfolding_all decide)
     (by with_unfolding_all decide)⟩

theorem nearestSource_cons_ne_none (ra dec : ℚ) (a : SourceRow) (t : List SourceRow) :
    nearestSource (a :: t) ra dec ≠ none := by
  rw [nearestSource]
  cases nearestSource t ra dec with
  | none => simp
  | some u => by_cases h : distSq ra dec u < distSq ra dec a <;> simp [h]

theorem nearestSource_min (ra dec : ℚ) : ∀ (srcs : List SourceRow) (s : SourceRow),
    nearestSource srcs ra dec = some s →
      s ∈ srcs ∧ ∀ s' ∈ srcs, distSq ra dec s ≤ distSq ra dec s' := by
  intro srcs
  induction srcs with
  | nil => intro s h; simp [nearestSource] at h
  | cons a t ih =>
    intro s h
    rw [nearestSource] at h
    cases hn : nearestSource t ra dec with
    | none =>
      rw [hn] at h
      injection h with h
      subst h
      cases t with
      | nil =>
        refine ⟨List.mem_cons_self a [], ?_⟩
        intro s' hs'
        rcases List.mem_cons.mp hs' with rfl | hs'
        · exact le_rfl
        · simp at hs'
      | cons b t' => exact absurd hn (nearestSource_cons_ne_none ra dec b t')
    | some u =>
      rw [hn] at h
      obtain ⟨hu_mem, hu_min⟩ := ih u hn
      by_cases hd : distSq ra dec u < distSq ra dec a
      · rw [show (match some u with
            | none => some a
            | some t => if distSq ra dec t < distSq ra dec a then some t else some a) =
            if distSq ra dec u < distSq ra dec a then some u else some a from rfl,
          if_pos hd] at h
        injection h with h
        subst h
        refine ⟨List.mem_cons_of_mem _ hu_mem, ?_⟩
        intro s' hs'
        rcases List.mem_cons.mp hs' with rfl | hs'
        · exact le_of_lt hd
        · exact hu_min s' hs'
      · rw [show (match some u with
            | none => some a
            | some t => if distSq ra dec t < distSq ra dec a then some t else some a) =
            if distSq ra dec u < distSq ra dec a then some u else some a from rfl,
          if_neg hd] at h
        injection h with h
        subst h
        refine ⟨List.mem_cons_self _ _, ?_⟩
        intro s' hs'
        rcases List.mem_cons.mp hs' with rfl | hs'
        · exact le_rfl
        · exact le_trans (not_lt.mp hd) (hu_min s' hs')

/-- C7 (amended): with coordinates only, both query backends select the
first stored Source minimising the small-angle Euclidean distance; the
`app_custom` backend rejects with 404 exactly when that minimum EXCEEDS
0.00083°, so a nearest neighbour at exactly the 3-arcsecond boundary is
accepted there — but the `solution1` backend accepts only when the minimum
is STRICTLY below 0.00083°, so the exact-boundary neighbour is rejected
there (distances compared via their squares). -/
theorem c7_nearest_match (srcs : List SourceRow) (ra dec : ℚ) (s : SourceRow)
    (hn : nearestSource srcs ra dec = some s) :
    (∀ s' ∈ srcs, distSq ra dec s ≤ distSq ra dec s') ∧
    (lookupQueryCustom srcs ra dec =
      if (83 / 100000 : ℚ) ^ 2 < distSq ra dec s then none else some s) ∧
    (lookupSol1 srcs ra dec =
      if distSq ra dec s < (83 / 100000 : ℚ) ^ 2 then some s else none) ∧
    (distSq ra dec s = (83 / 100000 : ℚ) ^ 2 →
      lookupQueryCustom srcs ra dec = some s ∧ lookupSol1 srcs ra dec = none) := by
  refine ⟨(nearestSource_min ra dec srcs s hn).2, ?_, ?_, ?_⟩
  · unfold lookupQueryCustom; rw [hn]
  · unfold lookupSol1; rw [hn]
  · intro hb
    constructor
    · unfold lookupQueryCustom
      rw [hn]
      show (if (83 / 100000 : ℚ) ^ 2 < distSq ra dec s then none else some s) = some s
      rw [hb]
      simp
    · unfold lookupSol1
      rw [hn]
      show (if distSq ra dec s < (83 / 100000 : ℚ) ^ 2 then some s else none) = none
      rw [hb]
      simp

/-- C7 counterexample: one stored source exactly 0.00083° (3 arcseconds) in
RA from the query point: `app_custom` accepts it, but `solution1`'s
file-based lookup returns nothing (strict `<`), refuting the claim that the
exact-boundary neighbour is accepted. -/
theorem c7_counterexample :
    lookupQueryCustom [srcBoundary] 0 0 = some srcBoundary ∧
    lookupSol1 [srcBoundary] 0 0 = none := by
  have hd : distSq 0 0 srcBoundary = (83 / 100000 : ℚ) ^ 2 := by
    unfold distSq srcBoundary
    norm_num
  have hn : nearestSource [srcBoundary] 0 0 = some srcBoundary := rfl
  constructor
  · unfold lookupQueryCustom
    rw [hn]
    show (if (83 / 100000 : ℚ) ^ 2 < distSq 0 0 srcBoundary then none
          else some srcBoundary) = some srcBoundary
    rw [hd]
    simp
  · unfold lookupSol1
    rw [hn]
    show (if distSq 0 0 srcBoundary < (83 / 100000 : ℚ) ^ 2 then some srcBoundary
          else none) = none
    rw [hd]
    simp

theorem c7_nearest_match_witness :
    nearestSource [srcBoundary] 0 0 = some srcBoundary ∧
    ((∀ s' ∈ [srcBoundary], distSq 0 0 srcBoundary ≤ distSq 0 0 s') ∧
     (lookupQueryCustom [srcBoundary] 0 0 =
       if (83 / 100000 : ℚ) ^ 2 < distSq 0 0 srcBoundary then none else some srcBoundary) ∧
     (lookupSol1 [srcBoundary] 0 0 =
       if distSq 0 0 srcBoundary < (83 / 100000 : ℚ) ^ 2 then some srcBoundary else none) ∧
     (distSq 0 0 srcBoundary = (83 / 100000 : ℚ) ^ 2 →
       lookupQueryCustom [srcBoundary] 0 0 = some srcBoundary ∧
       lookupSol1 [srcBoundary] 0 0 = none)) :=
  ⟨rfl, c7_nearest_match [srcBoundary] 0 0 srcBoundary rfl⟩

theorem saveBandRows_spec (zp : Option (List ZpEntry)) (b : Band) (rows : List RawRow)
    {s : StoredObs} (hs : s ∈ saveBandRows zp b rows) :
    ∃ r ∈ rows, ∃ m : ℚ, bandMpro b r = some m ∧ s.band = b ∧ s.scan_id = r.scan_id ∧
      s.mpro = round4 m ∧ s.mpro_corrected = round4 (mproCorrectedVal zp b r.scan_id m) := by
  rw [saveBandRows, List.mem_filterMap] at hs
  obtain ⟨r, hr, heq⟩ := hs
  rw [Option.map_eq_some'] at heq
  obtain ⟨m, hm, hmk⟩ := heq
  subst hmk
  exact ⟨r, hr, m, hm, rfl, rfl, rfl, rfl⟩

theorem saveRawObservations_spec (zp : Option (List ZpEntry)) (rows : List RawRow)
    {s : StoredObs} (hs : s ∈ saveRawObservations zp rows) :
    ∃ r ∈ rows, ∃ m : ℚ, bandMpro s.band r = some m ∧ s.scan_id = r.scan_id ∧
      s.mpro = round4 m ∧ s.mpro_corrected = round4 (mproCorrectedVal zp s.band r.scan_id m) := by
  rcases List.mem_append.mp hs with h | h
  · obtain ⟨r, hr, m, hm, hband, hscan, hmpro, hcorr⟩ := saveBandRows_spec zp Band.W1 rows h
    exact ⟨r, hr, m, by rw [hband]; exact hm, hscan, hmpro, by rw [hband]; exact hcorr⟩
  · obtain ⟨r, hr, m, hm, hband, hscan, hmpro, hcorr⟩ := saveBandRows_spec zp Band.W2 rows h
    exact ⟨r, hr, m, by rw [hband]; exact hm, hscan, hmpro, by rw [hband]; exact hcorr⟩

/-- C8: with no zero-point table, or an empty one, no MJD cutoff is applied
and every stored row has `mpro_corrected = mpro` (both 4-decimal rounded);
with a non-empty table, only rows with `mjd` strictly above the table's
minimum survive the cutoff, and each stored row has
`mpro_corrected = round4(mpro − dmag(scan_id, band))` with `dmag = 0` for a
scan absent from the table. -/
theorem c8_zero_point (rows rows2 : List RawRow) (t : List ZpEntry) (scan : String)
    (b : Band) (r' : RawRow) (s s2 s3 : StoredObs)
    (ht : t ≠ [])
    (hr : r' ∈ applyMjdCutoff (some t) rows)
    (hs : s ∈ saveRawObservations (some t) rows)
    (hs2 : s2 ∈ saveRawObservations none rows2)
    (hs3 : s3 ∈ saveRawObservations (some []) rows2)
    (hf : t.find? (fun e => e.scan_id == scan) = none) :
    applyMjdCutoff none rows = rows ∧
    applyMjdCutoff (some ([] : List ZpEntry)) rows = rows ∧
    zpMinMjd t < r'.mjd ∧
    (∃ r ∈ rows, ∃ m : ℚ, bandMpro s.band r = some m ∧ s.scan_id = r.scan_id ∧
      s.mpro = round4 m ∧
      s.mpro_corrected = round4 (m - dmagLookup t r.scan_id s.band)) ∧
    s2.mpro_corrected = s2.mpro ∧
    s3.mpro_corrected = s3.mpro ∧
    dmagLookup t scan b = 0 := by
  have hte : t.isEmpty = false := by simpa [List.isEmpty_iff] using ht
  have hcutt : applyMjdCutoff (some t) rows =
      rows.filter (fun r => decide (zpMinMjd t < r.mjd)) := by
    simp [applyMjdCutoff, hte]
  refine ⟨rfl, by simp [applyMjdCutoff], ?_, ?_, ?_, ?_, ?_⟩
  · rw [hcutt] at hr
    have := List.of_mem_filter hr
    exact of_decide_eq_true this
  · obtain ⟨r, hrr, m, hm, hscan, hmpro, hcorr⟩ := saveRawObservations_spec (some t) rows hs
    exact ⟨r, hrr, m, hm, hscan, hmpro, hcorr⟩
  · obtain ⟨r, hrr, m, hm, hscan, hmpro, hcorr⟩ := saveRawObservations_spec none rows2 hs2
    rw [hcorr, hmpro]
    rfl
  · obtain ⟨r, hrr, m, hm, hscan, hmpro, hcorr⟩ :=
      saveRawObservations_spec (some []) rows2 hs3
    rw [hcorr, hmpro]
    show round4 (m - dmagLookup [] r.scan_id s3.band) = round4 m
    rw [show dmagLookup [] r.scan_id s3.band = 0 from rfl, sub_zero]
  · unfold dmagLookup
    rw [hf]

theorem c8_zero_point_witness :
    (zpT0 ≠ [] ∧
     rowZpA ∈ applyMjdCutoff (some zpT0) rowsZp ∧
     (saveRawObservations (some zpT0) rowsZp).headD default
        ∈ saveRawObservations (some zpT0) rowsZp ∧
     (saveRawObservations none rowsZp).headD default
        ∈ saveRawObservations none rowsZp ∧
     (saveRawObservations (some []) rowsZp).headD default
        ∈ saveRawObservations (some []) rowsZp ∧
     zpT0.find? (fun e => e.scan_id == "zz") = none) ∧
    (applyMjdCutoff none rowsZp = rowsZp ∧
     applyMjdCutoff (some ([] : List ZpEntry)) rowsZp = rowsZp ∧
     zpMinMjd zpT0 < rowZpA.mjd ∧
     (∃ r ∈ rowsZp, ∃ m : ℚ,
       bandMpro ((saveRawObservations (some zpT0) rowsZp).headD default).band r = some m ∧
       ((saveRawObservations (some zpT0) rowsZp).headD default).scan_id = r.scan_id ∧
       ((saveRawObservations (some zpT0) rowsZp).headD default).mpro = round4 m ∧
       ((saveRawObservations (some zpT0) rowsZp).headD default).mpro_corrected =
         round4 (m - dmagLookup zpT0 r.scan_id
           ((saveRawObservations (some zpT0) rowsZp).headD default).band)) ∧
     ((saveRawObservations none rowsZp).headD default).mpro_corrected =
       ((saveRawObservations none rowsZp).headD default).mpro ∧
     ((saveRawObservations (some []) rowsZp).headD default).mpro_corrected =
       ((saveRawObservations (some []) rowsZp).headD default).mpro ∧
     dmagLookup zpT0 "zz" Band.W1 = 0) :=
  ⟨⟨by with_unfolding_all decide, by with_unfolding_all decide,
    by with_unfolding_all decide, by with_unfolding_all decide,
    by with_unfolding_all decide, by with_unfolding_all decide⟩,
   c8_zero_point rowsZp rowsZp zpT0 "zz" Band.W1 rowZpA
     ((saveRawObservations (some zpT0) rowsZp).headD default)
     ((saveRawObservations none rowsZp).headD default)
     ((saveRawObservations (some []) rowsZp).headD default)
     (by with_unfolding_all decide) (by with_unfolding_all decide)
     (by with_unfolding_all decide) (by with_unfolding_all decide)
     (by with_unfolding_all decide) (by with_unfolding_all decide)⟩

/-- C9 (amended): `mag_lim = −2.5·log₁₀((flux_mean − √Σflux_err²/n)/flux_mean)`
is persisted as NULL exactly when it is NaN (negative log argument), without
failing the source; but — contrary to the original claim — an INFINITE
`mag_lim` (log argument exactly 0) is persisted as the infinity, not as
NULL: the guard `pd.notna(x) and not np.isnan(x)` lets infinities through.
A positive argument stores the 4-decimal-rounded finite value. -/
theorem c9_mag_lim_persist (lg : ℚ → ℚ) (fm1 se1 n1 fm2 se2 n2 fm3 se3 n3 : ℚ)
    (h1 : (fm1 - se1 / n1) / fm1 < 0)
    (h2 : (fm2 - se2 / n2) / fm2 = 0)
    (h3 : 0 < (fm3 - se3 / n3) / fm3) :
    persistLim (magLimClass lg fm1 se1 n1) = none ∧
    persistLim (magLimClass lg fm2 se2 n2) = some LimV.inf ∧
    persistLim (magLimClass lg fm3 se3 n3) =
      some (LimV.fin (round4 (-(5/2) * lg ((fm3 - se3 / n3) / fm3)))) := by
  have c1 : magLimClass lg fm1 se1 n1 = LimV.nan := by
    simp only [magLimClass]
    rw [if_neg (not_lt.mpr (le_of_lt h1)), if_neg (ne_of_lt h1)]
  have c2 : magLimClass lg fm2 se2 n2 = LimV.inf := by
    simp only [magLimClass]
    rw [if_neg (not_lt.mpr (le_of_eq h2)), if_pos h2]
  have c3 : magLimClass lg fm3 se3 n3 =
      LimV.fin (-(5/2) * lg ((fm3 - se3 / n3) / fm3)) := by
    simp only [magLimClass]
    rw [if_pos h3]
  rw [c1, c2, c3]
  exact ⟨rfl, rfl, rfl⟩

/-- C9 counterexample: an epoch with `flux_mean = 1`, `√Σflux_err² = 1`,
`n = 1` has log argument `(1 - 1/1)/1 = 0`, so `mag_lim = +inf`; the insert
guard stores it as the infinity — NOT as null, refuting "whenever this value
is NaN or infinite the row is persisted with mag_lim null". -/
theorem c9_counterexample :
    persistLim (magLimClass (fun q => q) 1 1 1) = some LimV.inf ∧
    some LimV.inf ≠ (none : Option LimV) := by
  constructor
  · with_unfolding_all decide
  · simp

theorem c9_mag_lim_persist_witness :
    ((1 - 2 / 1 : ℚ) / 1 < 0 ∧ ((1 : ℚ) - 1 / 1) / 1 = 0 ∧ (0 : ℚ) < (1 - 0 / 1) / 1) ∧
    (persistLim (magLimClass (fun q => q) 1 2 1) = none ∧
     persistLim (magLimClass (fun q => q) 1 1 1) = some LimV.inf ∧
     persistLim (magLimClass (fun q => q) 1 0 1) =
       some (LimV.fin (round4 (-(5/2) * (fun q : ℚ => q) (((1 : ℚ) - 0 / 1) / 1))))) :=
  ⟨⟨by with_unfolding_all decide, by with_unfolding_all decide,
    by with_unfolding_all decide⟩,
   c9_mag_lim_persist (fun q => q) 1 2 1 1 1 1 1 0 1
     (by with_unfolding_all decide) (by with_unfolding_all decide)
     (by with_unfolding_all decide)⟩

theorem rowPasses_mono {tg tg' : Toggles} (h : ToggleLE tg tg') (b : Band)
    (s : StoredObs) (hp : rowPasses tg' b s = true) : rowPasses tg b s = true := by
  obtain ⟨h1, h2, h3, h4, h5, h6, h7, h8, h9, h10⟩ := h
  unfold rowPasses at hp ⊢
  simp only [Bool.and_eq_true, Bool.or_eq_true, Bool.not_eq_true'] at hp ⊢
  obtain ⟨⟨⟨⟨⟨⟨⟨⟨⟨p1, p2⟩, p3⟩, p4⟩, p5⟩, p6⟩, p7⟩, p8⟩, p9⟩, p10⟩ := hp
  refine ⟨⟨⟨⟨⟨⟨⟨⟨⟨?_, ?_⟩, ?_⟩, ?_⟩, ?_⟩, ?_⟩, ?_⟩, ?_⟩, ?_⟩, ?_⟩
  · rcases p1 with hF | hP
    · cases htg : tg.cc_flags
      · exact Or.inl rfl
      · exact absurd (h1 htg) (by rw [hF]; exact Bool.false_ne_true)
    · exact Or.inr hP
  · rcases p2 with hF | hP
    · cases htg : tg.sso_flg
      · exact Or.inl rfl
      · exact absurd (h2 htg) (by rw [hF]; exact Bool.false_ne_true)
    · exact Or.inr hP
  · rcases p3 with hF | hP
    · cases htg : tg.qi_fact
      · exact Or.inl rfl
      · exact absurd (h3 htg) (by rw [hF]; exact Bool.false_ne_true)
    · exact Or.inr hP
  · rcases p4 with hF | hP
    · cases htg : tg.saa_sep
      · exact Or.inl rfl
      · exact absurd (h4 htg) (by rw [hF]; exact Bool.false_ne_true)
    · exact Or.inr hP
  · rcases p5 with hF | hP
    · cases htg : tg.ph_qual
      · exact Or.inl rfl
      · exact absurd (h5 htg) (by rw [hF]; exact Bool.false_ne_true)
    · exact Or.inr hP
  · rcases p6 with hF | hP
    · cases htg : tg.moon_masked
      · exact Or.inl rfl
      · exact absurd (h6 htg) (by rw [hF]; exact Bool.false_ne_true)
    · exact Or.inr hP
  · rcases p7 with hF | hP
    · cases htg : tg.sat
      · exact Or.inl rfl
      · exact absurd (h7 htg) (by rw [hF]; exact Bool.false_ne_true)
    · exact Or.inr hP
  · rcases p8 with hF | hP
    · cases htg : tg.rchi2
      · exact Or.inl rfl
      · exact absurd (h8 htg) (by rw [hF]; exact Bool.false_ne_true)
    · exact Or.inr hP
  · rcases p9 with hF | hP
    · cases htg : tg.qual_frame
      · exact Or.inl rfl
      · exact absurd (h9 htg) (by rw [hF]; exact Bool.false_ne_true)
    · exact Or.inr hP
  · rcases p10 with hF | hP
    · cases htg : tg.sky
      · exact Or.inl rfl
      · exact absurd (h10 htg) (by rw [hF]; exact Bool.false_ne_true)
    · exact Or.inr hP

/-- C10: with sigma clipping disabled, the filtered endpoint returns exactly
the persisted rows of the requested (source, band) that satisfy every
enabled quality predicate, projected to `(mjd, mag, mag_err)`: with all ten
toggles off the full persisted set is returned unchanged, enabling further
toggles only ever removes rows (a sublist), and
`filtered_count ≤ original_count` always holds. -/
theorem c10_filtered_endpoint (tg tg' : Toggles) (rows : List StoredObs) (b : Band)
    (zpc : Bool) (himp : ToggleLE tg tg') :
    (∀ s ∈ rows, (s ∈ endpointFiltered tg b rows ↔ rowPasses tg b s = true)) ∧
    (∀ s ∈ endpointFiltered tg b rows, s ∈ rows ∧ rowPasses tg b s = true) ∧
    endpointFiltered togglesOff b rows = rows ∧
    (endpointFiltered tg' b rows).Sublist (endpointFiltered tg b rows) ∧
    (endpointFiltered tg' b rows).length ≤ (endpointFiltered tg b rows).length ∧
    (endpointFiltered tg b rows).length ≤ rows.length ∧
    endpointData tg zpc false b rows = (endpointFiltered tg b rows).map (projPoint zpc) := by
  have hsub : (endpointFiltered tg' b rows).Sublist (endpointFiltered tg b rows) :=
    List.monotone_filter_right rows (fun s hp => rowPasses_mono himp b s hp)
  refine ⟨?_, ?_, ?_, hsub, hsub.length_le, List.length_filter_le _ _, ?_⟩
  · intro s hsr
    constructor
    · intro hsf; exact List.of_mem_filter hsf
    · intro hp; exact List.mem_filter.mpr ⟨hsr, hp⟩
  · intro s hsf
    exact ⟨List.mem_of_mem_filter hsf, List.of_mem_filter hsf⟩
  · exact List.filter_eq_self.mpr (fun s _ => rfl)
  · simp [endpointData]

theorem c10_filtered_endpoint_witness :
    ToggleLE togglesOff togglesOn ∧
    ((∀ s ∈ saveRawObservations none rowsGap,
        (s ∈ endpointFiltered togglesOff Band.W1 (saveRawObservations none rowsGap) ↔
         rowPasses togglesOff Band.W1 s = true)) ∧
     (∀ s ∈ endpointFiltered togglesOff Band.W1 (saveRawObservations none rowsGap),
        s ∈ saveRawObservations none rowsGap ∧ rowPasses togglesOff Band.W1 s = true) ∧
     endpointFiltered togglesOff Band.W1 (saveRawObservations none rowsGap) =
       saveRawObservations none rowsGap ∧
     (endpointFiltered togglesOn Band.W1 (saveRawObservations none rowsGap)).Sublist
       (endpointFiltered togglesOff Band.W1 (saveRawObservations none rowsGap)) ∧
     (endpointFiltered togglesOn Band.W1 (saveRawObservations none rowsGap)).length ≤
       (endpointFiltered togglesOff Band.W1 (saveRawObservations none rowsGap)).length ∧
     (endpointFiltered togglesOff Band.W1 (saveRawObservations none rowsGap)).length ≤
       (saveRawObservations none rowsGap).length ∧
     endpointData togglesOff true false Band.W1 (saveRawObservations none rowsGap) =
       (endpointFiltered togglesOff Band.W1 (saveRawObservations none rowsGap)).map
         (projPoint true)) :=
  ⟨by unfold ToggleLE; decide,
   c10_filtered_endpoint togglesOff togglesOn (saveRawObservations none rowsGap)
     Band.W1 true (by unfold ToggleLE; decide)⟩
